import Mathlib

/-!
Verification development for the upload-tunkin service (FastAPI + MySQL).

Shallow embedding of the core logic of:
  app/core/config.py        (SqidsHelper id obfuscation, Config defaults)
  app/core/databases.py     (save_update transaction wrapper)
  app/repositories/sys_user.py (authenticate / get_user / validate_password,
                                TokenHelper.create_access_token / create_refresh_token)
  app/repositories/tunkin_repository.py (file validation, excel ingestion,
                                         fetch_page_data query building)
  app/models/request_model.py  (TunkinRequest)
  app/models/response_model.py (BasePageResponse)
  app/routers/auth.py       (authenticate_user endpoint outcome)

Python exceptions are modelled with explicit `Except` results; database and
clock effects are passed in as explicit inputs.
-/

/-- Python-level exceptions relevant to the claims under verification. -/
inductive PyErr where
  /-- list index out of range -/
  | indexError : PyErr
  /-- sqids or jwt DecodeError -/
  | decodeError : PyErr
  /-- attribute lookup failed on an object -/
  | attributeError : PyErr
  /-- a database driver error -/
  | dbError : PyErr
  deriving Repr, DecidableEq

/-- fastapi.HTTPException: a status code together with a detail message. -/
structure HttpError where
  status : Nat
  detail : String
  deriving Repr, DecidableEq

/-! ## IdObfuscator (app/core/config.py, SqidsHelper)

The sqids library is an external dependency.  Its interface is modelled as a
pair of functions; its documented contract (decoding an id produced by encode
yields the original number list) is taken as a hypothesis where a claim needs
it, and its decode routine is additionally modelled concretely below for the
failure-behaviour claim. -/

/-- Interface of the external sqids library: encode a list of non-negative
integers into a token of type `κ` and decode a token back to a list. -/
structure SqidsLib (κ : Type) where
  encode : List Nat → κ
  decode : κ → List Nat

/-- The wall-clock fields that `SqidsHelper.encode` reads from
`datetime.now()`. -/
structure PyDateTime where
  second : Nat
  minute : Nat
  month : Nat
  day : Nat
  microsecond : Nat
  deriving Repr, DecidableEq

namespace SqidsHelper

/-- `SqidsHelper.encode` (config.py line 44): packs the target number at
position 1 of a six-value payload, the other five values being time-derived
salt `[now.second, number, now.month, now.day, now.minute, now.microsecond]`. -/
def encode {κ : Type} (lib : SqidsLib κ) (now : PyDateTime) (number : Nat) : κ :=
  lib.encode [now.second, number, now.month, now.day, now.minute, now.microsecond]

/-- `SqidsHelper.decode` (config.py line 48) with an explicit decode routine:
`decoded = sqids.decode(hashid); return decoded[1]`.  Python raises
`IndexError` when the decoded list has fewer than two entries. -/
def decodeWith {κ : Type} (dec : κ → List Nat) (hashid : κ) : Except PyErr Nat :=
  match (dec hashid).get? 1 with
  | some v => .ok v
  | none => .error .indexError

/-- `SqidsHelper.decode` against an abstract sqids library. -/
def decode {κ : Type} (lib : SqidsLib κ) (hashid : κ) : Except PyErr Nat :=
  decodeWith lib.decode hashid

end SqidsHelper

/-! ### Concrete model of the sqids library decode routine

Modelled from the sqids-python reference implementation used by the service.
`Sqids.decode` never raises: an empty id or an id containing a character that
is not in the alphabet yields the empty list; otherwise the id is consumed
chunk by chunk.  The alphabet parameter is the library's internal (already
shuffled) alphabet. -/

/-- sqids `_to_number`: positional-value interpretation of a chunk over the
given alphabet (`reduce(lambda a, v: a * len(chars) + chars.index(v), id, 0)`). -/
def sqidsToNumber (alphabet : List Char) (chunk : List Char) : Nat :=
  chunk.foldl (fun a v => a * alphabet.length + alphabet.indexOf v) 0

/-- Loop body of sqids `_shuffle`: swap positions `i` and
`r = (i*j + ord(a[i]) + ord(a[j])) % len(a)` while `j > 0`. -/
def sqidsShuffleGo (a : Array Char) : Nat → Nat → Array Char
  | _, 0 => a
  | i, j + 1 =>
    let n := j + 1
    let ci := a.getD i ' '
    let cj := a.getD n ' '
    let r := (i * n + ci.toNat + cj.toNat) % a.size
    let cr := a.getD r ' '
    sqidsShuffleGo ((a.setD i cr).setD r ci) (i + 1) j

/-- sqids `_shuffle`: a deterministic alphabet permutation. -/
def sqidsShuffle (alphabet : List Char) : List Char :=
  (sqidsShuffleGo alphabet.toArray 0 (alphabet.length - 1)).toList

/-- `str.split(sep, 1)`: split at the first occurrence of `sep`, returning the
chunk before it and, when `sep` occurs, the remainder after it. -/
def splitOnce (sep : Char) : List Char → List Char × Option (List Char)
  | [] => ([], none)
  | c :: rest =>
    if c = sep then ([], some rest)
    else
      let (chunk, tail) := splitOnce sep rest
      (c :: chunk, tail)

/-- The `while id` loop of sqids decode, with fuel bounding the iterations
(each iteration strictly consumes the id). -/
def sqidsDecodeLoop (fuel : Nat) (alphabet : List Char) (id : List Char)
    (acc : List Nat) : List Nat :=
  match fuel with
  | 0 => acc
  | fuel + 1 =>
    match id with
    | [] => acc
    | _ =>
      let separator := alphabet.headD ' '
      match splitOnce separator id with
      | (chunk, none) =>
        if chunk.isEmpty then acc
        else acc ++ [sqidsToNumber alphabet.tail chunk]
      | (chunk, some rest) =>
        if chunk.isEmpty then acc
        else sqidsDecodeLoop fuel (sqidsShuffle alphabet) rest
          (acc ++ [sqidsToNumber alphabet.tail chunk])

/-- sqids-python `Sqids.decode`: returns `[]` for the empty id and for any id
containing a character outside the alphabet; otherwise rotates the alphabet by
the index of the first character, reverses it, and consumes the rest of the id
chunk by chunk.  It never raises an exception. -/
def sqidsDecode (alphabet : String) (id : String) : List Nat :=
  if id = "" then []
  else if ¬ id.data.all (fun c => alphabet.data.contains c) then []
  else
    match id.data with
    | [] => []
    | c0 :: rest =>
      let offset := alphabet.data.indexOf c0
      let rotated := (alphabet.data.drop offset ++ alphabet.data.take offset).reverse
      sqidsDecodeLoop (rest.length + 1) rotated rest []

/-! ## Credential service (app/repositories/sys_user.py, SysUserRepository)

The database round trips are passed in as explicit `Except` inputs: an
`.error` input models the database call raising, so the `try/except` blocks of
the source become pattern matches on those inputs. -/

/-- One row of the `get_user` join query (sys_user.py lines 36-50). -/
structure DbUserRow where
  username : String
  full_name : String
  email : String
  disabled : Bool
  role : Option Nat
  user_password : String
  deriving Repr, DecidableEq

/-- The user mapping returned by `get_user`: the raw integer role has been
replaced by its obfuscated encoding (empty string when the row has none). -/
structure UserData where
  username : String
  full_name : String
  email : String
  disabled : Bool
  role : String
  user_password : String
  deriving Repr, DecidableEq

/-- `SysUserRepository.get_user` (sys_user.py lines 35-65): the fetch outcome
is `fetched` (`.error` = the database call raised, `.ok none` = empty result,
`.ok (some row)` = first record).  Any exception is caught and converted to
`None`; the role is obfuscated with `encodeRole` when present, else set to
the empty string. -/
def get_user (encodeRole : Nat → String) (fetched : Except PyErr (Option DbUserRow)) :
    Option UserData :=
  match fetched with
  | .error _ => none
  | .ok none => none
  | .ok (some row) =>
    some { username := row.username
           full_name := row.full_name
           email := row.email
           disabled := row.disabled
           role := match row.role with
                   | some r => encodeRole r
                   | none => ""
           user_password := row.user_password }

/-- `SysUserRepository.validate_password` (sys_user.py lines 67-78): the
database computes `PASSWORD(plain)`; `hashFetched` is that round trip's
outcome.  Any exception or empty result yields `False`; otherwise the stored
hash is compared for equality. -/
def validate_password (hashFetched : Except PyErr (Option String))
    (hashed_password : String) : Bool :=
  match hashFetched with
  | .error _ => false
  | .ok none => false
  | .ok (some stored) => stored == hashed_password

/-- `SysUserRepository.authenticate` (sys_user.py lines 23-33): `None` when
the user is unknown or the password does not validate; any exception is caught
and converted to `None`. -/
def authenticate (encodeRole : Nat → String)
    (userFetched : Except PyErr (Option DbUserRow))
    (hashFetched : Except PyErr (Option String)) : Option UserData :=
  match get_user encodeRole userFetched with
  | none => none
  | some result =>
    if ¬ validate_password hashFetched result.user_password then none
    else some result

/-- Observable outcome of the `/token` endpoint after the client-credential
check (auth.py lines 44-66). -/
inductive LoginOutcome where
  | unauthorized : String → LoginOutcome
  | badRequest : String → LoginOutcome
  | issued : UserData → LoginOutcome
  deriving Repr, DecidableEq

/-- `authenticate_user` (auth.py lines 44-49, after the client check): a falsy
`authenticate` result yields `401 "Incorrect username or password"`, a
disabled user `400 "inactive_user"`, otherwise tokens are issued for the
user. -/
def authenticate_user (encodeRole : Nat → String)
    (userFetched : Except PyErr (Option DbUserRow))
    (hashFetched : Except PyErr (Option String)) : LoginOutcome :=
  match authenticate encodeRole userFetched hashFetched with
  | none => .unauthorized "Incorrect username or password"
  | some user =>
    if user.disabled then .badRequest "inactive_user"
    else .issued user

/-! ## Token helper (app/repositories/sys_user.py, TokenHelper)

Instants and time deltas are modelled in whole seconds.  Python's
`expires_delta or timedelta(minutes=m)` falls back to the default not only for
`None` but also for a zero (falsy) timedelta. -/

/-- The configuration fields read by the token helper (config.py lines 31-37),
with the env-absent defaults of `Config.__init__`. -/
structure AppConfig where
  jwt_access_token_expire_minutes : Nat := 30
  deriving Repr, DecidableEq

/-- `Config()` with no environment overrides. -/
def defaultConfig : AppConfig := {}

/-- Python `expires_delta or timedelta(minutes=m)`: a `None` or zero (falsy)
timedelta falls back to the default. -/
def pyOrDelta (expires_delta : Option Int) (default : Int) : Int :=
  match expires_delta with
  | some d => if d ≠ 0 then d else default
  | none => default

/-- The claims common to both token kinds that the claims under verification
inspect: subject, expiry instant, issue instant, and the type marker. -/
structure TokenClaims where
  sub : String
  exp : Int
  iat : Int
  type : String
  deriving Repr, DecidableEq

/-- `TokenHelper.create_access_token` (sys_user.py lines 104-124):
`expire = now + (expires_delta or timedelta(minutes=config.jwt_access_token_expire_minutes))`. -/
def create_access_token (config : AppConfig) (now : Int) (data : UserData)
    (expires_delta : Option Int) : TokenClaims :=
  { sub := data.username
    exp := now + pyOrDelta expires_delta (config.jwt_access_token_expire_minutes * 60)
    iat := now
    type := "access_token" }

/-- `TokenHelper.create_refresh_token` (sys_user.py lines 132-149): the
expiry default is the same
`timedelta(minutes=config.jwt_access_token_expire_minutes)` as for access
tokens. -/
def create_refresh_token (config : AppConfig) (now : Int) (data : UserData)
    (expires_delta : Option Int) : TokenClaims :=
  { sub := data.username
    exp := now + pyOrDelta expires_delta (config.jwt_access_token_expire_minutes * 60)
    iat := now
    type := "refresh_token" }

/-- The token issuance of `authenticate_user` (auth.py lines 52-59): the
access token is created with `timedelta(minutes=config.jwt_access_token_expire_minutes)`
and the refresh token with an explicit `timedelta(days=7)`. -/
def issueTokens (config : AppConfig) (now : Int) (user : UserData) :
    TokenClaims × TokenClaims :=
  (create_access_token config now user
     (some (config.jwt_access_token_expire_minutes * 60)),
   create_refresh_token config now user (some (7 * 24 * 60 * 60)))

/-! ## Page envelope (app/models/response_model.py, BasePageResponse)

`ResponseBuilder.paginated` serialises the envelope with
`data.model_dump()`, so the serialised envelope carries exactly the fields
declared on `BasePageResponse`. -/

/-- `BasePageResponse` (response_model.py lines 24-29), the page envelope
model: `content`, `total`, `page`, `page_size`, `total_pages`.  Rows are kept
abstract. -/
structure BasePageResponse (Row : Type) where
  content : List Row
  total : Nat
  page : Nat
  page_size : Nat
  total_pages : Nat

/-- The field names of `BasePageResponse`, in declaration order: the keys of
`model_dump()` of the envelope. -/
def basePageResponseFields : List String :=
  ["content", "total", "page", "page_size", "total_pages"]

/-! ### Paginated query engine

Modelled from the spec: the `DatabaseHelper.fetch_page` routine called by
`TunkinRepository.fetch_page_data` is not part of the sources under
verification (only its callers are).  Per the spec's §4.4, it computes
`total` from a count query, windows the data query with
`LIMIT pageSize OFFSET (page-1)*pageSize`, and packages
`total_pages = floor(total/pageSize) + (1 if total % pageSize > 0 else 0)`,
`is_first = page==1`, `is_last = offset+pageSize >= total`,
`is_empty = rowCount==0`, `total_elements = rowCount`.  The full filtered
result sequence stands in for the database. -/

/-- Modelled from the spec: the page metadata of §4.4 step 4, computed from
the full result sequence `rows`, the requested `page` and `pageSize`.
`content` is the `LIMIT pageSize OFFSET (page-1)*pageSize` window. -/
structure PageMeta (Row : Type) where
  content : List Row
  total : Nat
  total_pages : Nat
  is_first : Bool
  is_last : Bool
  is_empty : Bool
  total_elements : Nat

/-- Modelled from the spec: `DatabaseHelper.fetch_page` envelope computation
(spec §4.4), absent from the sources under verification. -/
def fetch_page {Row : Type} (rows : List Row) (page pageSize : Nat) : PageMeta Row :=
  let total := rows.length
  let offset := (page - 1) * pageSize
  let content := (rows.drop offset).take pageSize
  { content := content
    total := total
    total_pages := total / pageSize + (if total % pageSize > 0 then 1 else 0)
    is_first := page == 1
    is_last := offset + pageSize ≥ total
    is_empty := content.length == 0
    total_elements := content.length }

/-! ## TunkinRequest and fetch_page_data query building
(app/models/request_model.py, app/repositories/tunkin_repository.py)

`TunkinRequest(PaginationQuery)` declares `page: int = 1`, `size: int = 10`,
`nipam: Optional[str] = None` — and no other field.  Attribute access on the
pydantic model is dynamic: reading an undeclared attribute raises
`AttributeError`, which the embedding makes explicit through `getAttr`. -/

/-- A python value as read off a pydantic model attribute. -/
inductive PyVal where
  | int : Int → PyVal
  | str : String → PyVal
  | noneVal : PyVal
  deriving Repr, DecidableEq

/-- Python truthiness of the modelled values: `0`, `""` and `None` are
falsy. -/
def PyVal.truthy : PyVal → Bool
  | .int n => n ≠ 0
  | .str s => s ≠ ""
  | .noneVal => false

/-- `TunkinRequest` (request_model.py lines 6-12): `page` defaults to 1,
`size` to 10, `nipam` to `None`. -/
structure TunkinRequest where
  page : Int := 1
  size : Int := 10
  nipam : Option String := none
  deriving Repr, DecidableEq

/-- Query-parameter binding of `TunkinRequest`: absent parameters take the
declared defaults. -/
def TunkinRequest.fromQuery (page? size? : Option Int) (nipam? : Option String) :
    TunkinRequest :=
  { page := page?.getD 1, size := size?.getD 10, nipam := nipam? }

/-- Dynamic attribute access on a `TunkinRequest` instance: only the three
declared fields resolve; any other name raises `AttributeError`. -/
def TunkinRequest.getAttr (req : TunkinRequest) : String → Except PyErr PyVal
  | "page" => .ok (.int req.page)
  | "size" => .ok (.int req.size)
  | "nipam" => .ok (match req.nipam with | some s => .str s | none => .noneVal)
  | _ => .error .attributeError

/-- A WHERE condition appended by `fetch_page_data`. -/
inductive TunkinCond where
  | periodeEq : String → TunkinCond
  | nipamEq : String → TunkinCond
  | namaLike : String → TunkinCond
  deriving Repr, DecidableEq

/-- `TunkinRepository.fetch_page_data` (tunkin_repository.py lines 41-71),
reduced to the conditions it binds and the page call it issues: the base
query filters `kpi.periode = %s`; `if req.nipam:` appends an exact `nipam`
match; `if req.nama:` appends a `LIKE %nama%` match — but reads the
undeclared attribute `nama`, so the access raises. -/
def fetch_page_data (periode : String) (req : TunkinRequest) :
    Except PyErr (List TunkinCond × Int × Int) := do
  let conds := [TunkinCond.periodeEq periode]
  let nipamVal ← req.getAttr "nipam"
  let conds := if nipamVal.truthy then
      conds ++ [TunkinCond.nipamEq (match nipamVal with | .str s => s | _ => "")]
    else conds
  let namaVal ← req.getAttr "nama"
  let conds := if namaVal.truthy then
      conds ++ [TunkinCond.namaLike (match namaVal with | .str s => s | _ => "")]
    else conds
  let pageVal ← req.getAttr "page"
  let sizeVal ← req.getAttr "size"
  pure (conds,
        (match pageVal with | .int n => n | _ => 0),
        (match sizeVal with | .int n => n | _ => 0))

/-! ## save_update (app/core/databases.py lines 279-290)

The batch statement execution is passed in as an explicit outcome
(`.ok affected` = `executemany` succeeded with `cursor.rowcount = affected`,
`.error` = it raised).  The source commits once after the whole
`executemany`, rolls back on any exception, logs, and — in both branches —
falls off the end of the function, returning `None`. -/

/-- What happened to the transaction. -/
inductive TxnOutcome where
  /-- the whole batch was committed, with the given affected-row count -/
  | committed : Nat → TxnOutcome
  /-- the transaction was rolled back; nothing was committed -/
  | rolledBack : TxnOutcome
  deriving Repr, DecidableEq

/-- `save_update` (databases.py lines 279-290): first component is the
python return value (always `None`: neither branch has a `return`
statement), second the transaction outcome.  The exception is caught,
logged and not re-raised. -/
def save_update (execOutcome : Except PyErr Nat) : Option Nat × TxnOutcome :=
  match execOutcome with
  | .ok affected => (none, .committed affected)
  | .error _ => (none, .rolledBack)

/-- `affected or 0` as computed by `process_excel_data` from the
`save_update` return value (tunkin_repository.py line 179). -/
def affectedRowsReport (returned : Option Nat) : Nat :=
  match returned with
  | some n => n
  | none => 0

/-! ## Spreadsheet ingestion (app/repositories/tunkin_repository.py)

`process_excel_data` iterates the worksheet rows from row 6 on, skips rows
whose `row[1]` (PERIODE) cell is `None`, and retains
`(str(row[1]), str(row[2]), row[4])` triples. -/

/-- A worksheet row as consumed by `process_excel_data`: the PERIODE cell
(`row[1]`, `None` when empty), the NIPAM cell already rendered through
`str(...)`, and the raw nominal cell `row[4]`. -/
structure XRow where
  periodeCell : Option String
  nipamCell : String
  nominalCell : Int
  deriving Repr, DecidableEq

/-- A `(periode, nipam, nominal)` triple of the upsert batch. -/
structure Triple where
  periode : String
  nipam : String
  nominal : Int
  deriving Repr, DecidableEq

/-- The row-extraction loop (tunkin_repository.py lines 151-156): rows that
are `None` and rows whose `row[1]` cell is `None` are skipped, the rest
are collected as `(str(row[1]), str(row[2]), row[4])`. -/
def extractData (rows : List (Option XRow)) : List Triple :=
  rows.filterMap (fun r =>
    match r with
    | none => none
    | some row =>
      match row.periodeCell with
      | none => none
      | some p => some ⟨p, row.nipamCell, row.nominalCell⟩)

/-- `process_excel_data` (tunkin_repository.py lines 138-182) after the file
was read: empty data, inconsistent periods, and a period mismatch with the
caller-declared `periode` each raise `HTTPException(400, ...)` before the
upsert; otherwise `save_update` runs on the whole batch and the endpoint
payload reports `affected or 0`.  The `.ok` result carries the batch that was
handed to `save_update`; an `.error` result is raised before any upsert is
executed. -/
def process_excel_data (periode : String) (rows : List (Option XRow))
    (execOutcome : Except PyErr Nat) :
    Except HttpError (List Triple × Nat) :=
  let data := extractData rows
  if data.length = 0 then
    .error ⟨400, "File Excel kosong"⟩
  else
    let uniquePeriode := (data.map Triple.periode).dedup
    if uniquePeriode.length > 1 then
      .error ⟨400, "Periode pada file excel tidak konsisten!"⟩
    else if uniquePeriode.any (fun v => v ≠ periode) then
      .error ⟨400, "Periode pada file dengan request tidak sesuai!"⟩
    else
      let (returned, _) := save_update execOutcome
      .ok (data, affectedRowsReport returned)

/-! ## Upload file validation (app/repositories/tunkin_repository.py lines 94-136) -/

/-- The fields of the fastapi `UploadFile` that `_file_checker` reads. -/
structure PyUploadFile where
  filename : Option String
  size : Nat
  content_type : String
  deriving Repr, DecidableEq

/-- Truthiness of `self.file.filename`: `None` and `""` are falsy. -/
def truthyFilename : Option String → Bool
  | none => false
  | some s => s ≠ ""

/-- `filename.lower().split('.')[-1]`: the extension is the last
dot-separated component of the lowercased filename. -/
def fileExtension (filename : String) : String :=
  (filename.toLower.splitOn ".").getLast!

/-- `_validate_file_extension` (lines 106-112): only `xlsx` and `xls` pass.
The message interpolates the allowed set in its iteration order. -/
def validate_file_extension (f : PyUploadFile) : Except HttpError Unit :=
  if ¬ (fileExtension (f.filename.getD "") = "xlsx" ∨
        fileExtension (f.filename.getD "") = "xls") then
    .error ⟨400, "Ekstensi file tidak diizinkan. Hanya ekstensi xlsx, xls yang diperbolehkan."⟩
  else .ok ()

/-- `_validate_file_size` (lines 114-125): over 50MB first, then the empty
file. -/
def validate_file_size (f : PyUploadFile) : Except HttpError Unit :=
  if f.size > 50 * 1024 * 1024 then
    .error ⟨400, "Ukuran file melebihi batas maksimum 50.0 MB."⟩
  else if f.size = 0 then
    .error ⟨400, "File Kosong"⟩
  else .ok ()

/-- `_validate_content_type` (lines 127-136): the two Excel MIME types. -/
def validate_content_type (f : PyUploadFile) : Except HttpError Unit :=
  if ¬ (f.content_type = "application/vnd.ms-excel" ∨
        f.content_type = "application/vnd.openxmlformats-officedocument.spreadsheetml.sheet") then
    .error ⟨400, "Tipe konten file tidak valid untuk file Excel."⟩
  else .ok ()

/-- `_file_checker` (lines 94-104): file present, filename truthy, then the
three validators in sequence; the first raised `HTTPException` aborts the
rest. -/
def file_checker (file : Option PyUploadFile) : Except HttpError Unit := do
  match file with
  | none => throw ⟨400, "File tidak ditemukan"⟩
  | some f =>
    if ¬ truthyFilename f.filename then throw ⟨400, "Nama File tidak valid"⟩
    validate_file_extension f
    validate_file_size f
    validate_content_type f

/-! ## Claims -/

/-- Claim C1: for every non-negative integer `n` and every wall-clock instant,
`decode (encode n) = n`: the encoder packs `n` at position 1 of a six-value
payload whose other five values are time-derived salt, and the decoder
recovers the value at position 1.  The sqids library contract (decode inverts
encode on number lists) is the hypothesis `hlib`. -/
theorem C1_decode_encode_roundtrip {κ : Type} (lib : SqidsLib κ)
    (hlib : ∀ l : List Nat, lib.decode (lib.encode l) = l)
    (now : PyDateTime) (n : Nat) :
    SqidsHelper.decode lib (SqidsHelper.encode lib now n) = .ok n := by
  unfold SqidsHelper.decode SqidsHelper.decodeWith SqidsHelper.encode
  rw [hlib]
  rfl

/-- A sqids library instance over bare number lists whose decode trivially
inverts encode; it instantiates the library contract for the C1 witness. -/
def idSqidsLib : SqidsLib (List Nat) where
  encode := fun l => l
  decode := fun l => l

/-- Witness for C1 at a concrete instant and number. -/
theorem C1_decode_encode_roundtrip_witness :
    SqidsHelper.decode idSqidsLib
      (SqidsHelper.encode idSqidsLib ⟨10, 20, 3, 4, 5⟩ 42) = .ok 42 :=
  C1_decode_encode_roundtrip idSqidsLib (fun _ => rfl) ⟨10, 20, 3, 4, 5⟩ 42

/-- Claim C2 (code bug): `save_update` computes the affected-row count and
commits the batch atomically, but returns `None` in every case (so the upload
endpoint always reports `affected_rows = 0`), and on failure it rolls back,
logs and swallows the exception instead of propagating it. -/
theorem C2_save_update_swallows_and_returns_none :
    save_update (.ok 3) = (none, .committed 3) ∧
    save_update (.error .dbError) = (none, .rolledBack) ∧
    affectedRowsReport (save_update (.ok 3)).fst = 0 ∧
    affectedRowsReport (save_update (.error .dbError)).fst = 0 :=
  ⟨rfl, rfl, rfl, rfl⟩

/-- Claim C10: `get_user`, `validate_password` and `authenticate` convert any
internal failure (a raising database lookup or password-hash round trip) into
`None`/`False`, and the login endpoint therefore answers
`401 "Incorrect username or password"` on backend failure, never a 500. -/
theorem C10_login_backend_failure_is_unauthorized (e : PyErr)
    (encodeRole : Nat → String) (hashed : String)
    (hashFetched : Except PyErr (Option String)) (row : DbUserRow) :
    get_user encodeRole (.error e) = none ∧
    validate_password (.error e) hashed = false ∧
    authenticate encodeRole (.error e) hashFetched = none ∧
    authenticate encodeRole (.ok (some row)) (.error e) = none ∧
    authenticate_user encodeRole (.error e) hashFetched =
      .unauthorized "Incorrect username or password" ∧
    authenticate_user encodeRole (.ok (some row)) (.error e) =
      .unauthorized "Incorrect username or password" := by
  refine ⟨rfl, rfl, rfl, ?_, rfl, ?_⟩ <;>
    simp [authenticate, authenticate_user, get_user, validate_password]

/-- Claim C4: a login attempt with an unknown username and one with a known
username but a password that does not validate produce the same observable
outcome, the `401 "Incorrect username or password"` response, so a caller
cannot tell whether the username exists. -/
theorem C4_login_failures_indistinguishable (encodeRole : Nat → String)
    (hash1 : Except PyErr (Option String)) (row : DbUserRow)
    (hash2 : Except PyErr (Option String))
    (hwrong : validate_password hash2 row.user_password = false) :
    authenticate_user encodeRole (.ok none) hash1 =
      authenticate_user encodeRole (.ok (some row)) hash2 ∧
    authenticate_user encodeRole (.ok none) hash1 =
      .unauthorized "Incorrect username or password" := by
  constructor
  · simp [authenticate_user, authenticate, get_user, hwrong]
  · rfl

/-- Witness for C4: an unknown user and a known user with a wrong password
hash both yield the same 401 outcome. -/
theorem C4_login_failures_indistinguishable_witness :
    validate_password (.ok (some "OTHERHASH"))
      (DbUserRow.user_password ⟨"alice", "Alice", "a@x.id", false, some 1, "STOREDHASH"⟩) = false ∧
    authenticate_user toString (.ok none) (.error .dbError) =
      authenticate_user toString
        (.ok (some ⟨"alice", "Alice", "a@x.id", false, some 1, "STOREDHASH"⟩))
        (.ok (some "OTHERHASH")) ∧
    authenticate_user toString (.ok none) (.error .dbError) =
      .unauthorized "Incorrect username or password" := by
  refine ⟨by decide, ?_, ?_⟩
  · exact (C4_login_failures_indistinguishable toString (.error .dbError)
      ⟨"alice", "Alice", "a@x.id", false, some 1, "STOREDHASH"⟩
      (.ok (some "OTHERHASH")) (by decide)).1
  · exact (C4_login_failures_indistinguishable toString (.error .dbError)
      ⟨"alice", "Alice", "a@x.id", false, some 1, "STOREDHASH"⟩
      (.ok (some "OTHERHASH")) (by decide)).2

/-- Claim C5: when the retained spreadsheet rows contain more than one
distinct period value, ingestion fails with the 400 "Periode pada file excel
tidak konsisten!" error regardless of the caller-declared period; when the
single distinct period differs from the declared one, it fails with the 400
"Periode pada file dengan request tidak sesuai!" error; in both cases the
result is an error raised before `save_update`, so no upsert executes. -/
theorem C5_period_consistency (periode : String) (rows : List (Option XRow))
    (execOutcome : Except PyErr Nat) :
    (1 < ((extractData rows).map Triple.periode).dedup.length →
      process_excel_data periode rows execOutcome =
        .error ⟨400, "Periode pada file excel tidak konsisten!"⟩) ∧
    (∀ p, ((extractData rows).map Triple.periode).dedup = [p] → p ≠ periode →
      process_excel_data periode rows execOutcome =
        .error ⟨400, "Periode pada file dengan request tidak sesuai!"⟩) := by
  constructor
  · intro h
    have hne : extractData rows ≠ [] := by
      intro he
      rw [he] at h
      simp at h
    unfold process_excel_data
    rw [if_neg (by simpa [List.length_eq_zero] using hne)]
    rw [if_pos h]
  · intro p hp hne
    have hdata : extractData rows ≠ [] := by
      intro he
      rw [he] at hp
      simp at hp
    unfold process_excel_data
    rw [if_neg (by simpa [List.length_eq_zero] using hdata)]
    rw [hp]
    simp [hne]

/-- Witness for C5: a two-period file is rejected as inconsistent, and a
single-period file whose period differs from the declared one is rejected as
mismatched. -/
theorem C5_period_consistency_witness :
    process_excel_data "202401"
      [some ⟨some "202401", "001", 10⟩, some ⟨some "202402", "002", 20⟩]
      (.ok 2) =
      .error ⟨400, "Periode pada file excel tidak konsisten!"⟩ ∧
    process_excel_data "202401" [some ⟨some "202402", "001", 10⟩] (.ok 1) =
      .error ⟨400, "Periode pada file dengan request tidak sesuai!"⟩ := by
  constructor
  · exact (C5_period_consistency "202401"
      [some ⟨some "202401", "001", 10⟩, some ⟨some "202402", "002", 20⟩]
      (.ok 2)).1 (by decide)
  · exact (C5_period_consistency "202401" [some ⟨some "202402", "001", 10⟩]
      (.ok 1)).2 "202402" (by decide) (by decide)

/-- Claim C6: upload validation is fail-fast with the first failure winning,
in the order file present, filename truthy, extension in {xlsx, xls}, size at
most 50MB and non-zero, content type one of the two Excel MIME types; each
failure is a 400 with a check-specific message, and once a check fails the
later ones are not evaluated.  The statement normalises the sequenced
validators of `_file_checker` into that priority chain. -/
theorem C6_validation_order (file : Option PyUploadFile) :
    file_checker file =
      match file with
      | none => .error ⟨400, "File tidak ditemukan"⟩
      | some f =>
        if ¬ truthyFilename f.filename then
          .error ⟨400, "Nama File tidak valid"⟩
        else if ¬ (fileExtension (f.filename.getD "") = "xlsx" ∨
                   fileExtension (f.filename.getD "") = "xls") then
          .error ⟨400, "Ekstensi file tidak diizinkan. Hanya ekstensi xlsx, xls yang diperbolehkan."⟩
        else if f.size > 50 * 1024 * 1024 then
          .error ⟨400, "Ukuran file melebihi batas maksimum 50.0 MB."⟩
        else if f.size = 0 then
          .error ⟨400, "File Kosong"⟩
        else if ¬ (f.content_type = "application/vnd.ms-excel" ∨
                   f.content_type = "application/vnd.openxmlformats-officedocument.spreadsheetml.sheet") then
          .error ⟨400, "Tipe konten file tidak valid untuk file Excel."⟩
        else .ok () := by
  cases file with
  | none => rfl
  | some f =>
    simp only [file_checker, validate_file_extension, validate_file_size,
      validate_content_type]
    split_ifs <;> simp_all [Bind.bind, Except.bind, Pure.pure, Except.pure]

/-- Claim C7 counterexample: with the default configuration and no caller
override, `create_refresh_token` sets the expiry 30 minutes (1800 seconds)
after issuance, not 7 days (604800 seconds). -/
theorem C7_refresh_default_counterexample :
    (create_refresh_token defaultConfig 0
      ⟨"alice", "Alice", "a@x.id", false, "r", "h"⟩ none).exp = 1800 ∧
    (1800 : Int) ≠ 7 * 24 * 60 * 60 := by
  exact ⟨rfl, by decide⟩

/-- Claim C7 as amended: when the caller does not override the TTL, both
`create_access_token` and `create_refresh_token` default the expiry to the
configured access-token minutes after issuance; the 7-day refresh TTL is
supplied explicitly by the `authenticate_user` caller, which passes
`timedelta(days=7)`. -/
theorem C7_refresh_ttl_from_caller (config : AppConfig) (now : Int)
    (user : UserData) :
    (create_refresh_token config now user none).exp =
      now + config.jwt_access_token_expire_minutes * 60 ∧
    (create_access_token config now user none).exp =
      now + config.jwt_access_token_expire_minutes * 60 ∧
    ((issueTokens config now user).2).exp = now + 7 * 24 * 60 * 60 ∧
    ((issueTokens config now user).1).exp =
      now + config.jwt_access_token_expire_minutes * 60 := by
  refine ⟨rfl, rfl, ?_, ?_⟩
  · simp [issueTokens, create_refresh_token, pyOrDelta]
  · simp [issueTokens, create_access_token, pyOrDelta]

/-- Floor division plus a remainder indicator equals ceiling division. -/
lemma floor_add_indicator_eq_ceil (T S : Nat) (hS : 0 < S) :
    T / S + (if T % S > 0 then 1 else 0) = (T + S - 1) / S := by
  have hmod := Nat.div_add_mod T S
  rcases Nat.eq_zero_or_pos (T % S) with h | h
  · have hrw : T + S - 1 = S * (T / S) + (S - 1) := by omega
    have h1 : (S - 1) / S = 0 := Nat.div_eq_of_lt (by omega)
    rw [hrw, Nat.mul_add_div hS, h1]
    simp [h]
  · have hm : T % S < S := Nat.mod_lt _ hS
    have hrw : T + S - 1 = S * (T / S) + (T % S + S - 1) := by omega
    have h1 : (T % S + S - 1) / S = 1 :=
      Nat.div_eq_of_lt_le (by omega) (by omega)
    rw [hrw, Nat.mul_add_div hS, h1]
    simp [h]

/-- Claim C3 counterexample: the page envelope model `BasePageResponse`
declares only `content`, `total`, `page`, `page_size` and `total_pages`; its
`model_dump()` carries none of the fields `is_first`, `is_last`, `is_empty`,
`total_elements` the claim asserts. -/
theorem C3_envelope_fields_counterexample :
    "is_first" ∉ basePageResponseFields ∧
    "is_last" ∉ basePageResponseFields ∧
    "is_empty" ∉ basePageResponseFields ∧
    "total_elements" ∉ basePageResponseFields := by
  refine ⟨?_, ?_, ?_, ?_⟩ <;> decide

/-- Claim C3 as amended: for every result sequence, `page ≥ 1` and
`pageSize ≥ 1`, the page metadata computed by the paginated query engine
satisfies `total_pages = floor(T/S) + (1 if T mod S > 0 else 0) = ceil(T/S)`,
`is_first ⇔ page = 1`, `is_last ⇔ (page-1)*S + S ≥ T`,
`is_empty ⇔ the page content is empty`, and `total_elements` is the row count
of the current page — but the serialised envelope `BasePageResponse` carries
only `content`, `total`, `page`, `page_size` and `total_pages`, not the four
metadata fields. -/
theorem C3_page_envelope_amended {Row : Type} (rows : List Row)
    (page pageSize : Nat) (hp : 1 ≤ page) (hS : 1 ≤ pageSize) :
    (fetch_page rows page pageSize).total_pages =
      rows.length / pageSize + (if rows.length % pageSize > 0 then 1 else 0) ∧
    (fetch_page rows page pageSize).total_pages =
      (rows.length + pageSize - 1) / pageSize ∧
    ((fetch_page rows page pageSize).is_first = true ↔ page = 1) ∧
    ((fetch_page rows page pageSize).is_last = true ↔
      (page - 1) * pageSize + pageSize ≥ rows.length) ∧
    ((fetch_page rows page pageSize).is_empty = true ↔
      (fetch_page rows page pageSize).content = []) ∧
    (fetch_page rows page pageSize).total_elements =
      (fetch_page rows page pageSize).content.length ∧
    basePageResponseFields = ["content", "total", "page", "page_size", "total_pages"] := by
  refine ⟨rfl, ?_, ?_, ?_, ?_, rfl, rfl⟩
  · exact floor_add_indicator_eq_ceil rows.length pageSize hS
  · simp [fetch_page]
  · simp [fetch_page]
  · simp [fetch_page, List.length_eq_zero]
    omega

/-- Witness for C3 as amended, at 7 total rows, page 2 of size 3. -/
theorem C3_page_envelope_amended_witness :
    1 ≤ 2 ∧ 1 ≤ 3 ∧
    (fetch_page [10, 20, 30, 40, 50, 60, 70] 2 3).total_pages = 3 ∧
    (fetch_page [10, 20, 30, 40, 50, 60, 70] 2 3).is_last = false := by
  refine ⟨by decide, by decide, ?_, by decide⟩
  have h := (C3_page_envelope_amended [10, 20, 30, 40, 50, 60, 70] 2 3
    (by decide) (by decide)).2.1
  simpa using h

/-- Claim C8 counterexample: decoding the empty (malformed) token makes the
sqids library return the empty number list, and `SqidsHelper.decode` then
fails with `IndexError` from `decoded[1]` — not with `DecodeError`. -/
theorem C8_decode_error_counterexample :
    SqidsHelper.decodeWith (sqidsDecode "abcdefghijklmnopqrstuvwxyz") "" =
      .error .indexError ∧
    (Except.error PyErr.indexError : Except PyErr Nat) ≠
      .error .decodeError := by
  exact ⟨rfl, by simp⟩

/-- Claim C8 as amended: for every alphabet and every malformed token (empty,
or containing a character outside the alphabet), the sqids decode returns the
empty list and `SqidsHelper.decode` fails with `IndexError` (list index out of
range), never with `DecodeError`. -/
theorem C8_malformed_token_index_error (alphabet id : String)
    (h : id = "" ∨ ¬ id.data.all (fun c => alphabet.data.contains c)) :
    SqidsHelper.decodeWith (sqidsDecode alphabet) id = .error .indexError := by
  have hdec : sqidsDecode alphabet id = [] := by
    by_cases he : id = ""
    · simp [sqidsDecode, he]
    · have hall : ¬ id.data.all (fun c => alphabet.data.contains c) := by
        rcases h with h | h
        · exact absurd h he
        · exact h
      unfold sqidsDecode
      rw [if_neg he, if_pos hall]
  simp [SqidsHelper.decodeWith, hdec]

/-- Witness for C8 as amended: the token "!" over the alphabet "abc". -/
theorem C8_malformed_token_index_error_witness :
    SqidsHelper.decodeWith (sqidsDecode "abc") "!" = .error .indexError :=
  C8_malformed_token_index_error "abc" "!" (.inr (by decide))

/-- Claim C9 (code bug): `fetch_page_data` reads the attribute `nama` of
`TunkinRequest`, which declares only `page`, `size` and `nipam`; the access
raises `AttributeError`, so every request to the paginated list endpoint
fails instead of succeeding with the optional filters applied. -/
theorem C9_fetch_page_data_attribute_error (periode : String)
    (req : TunkinRequest) :
    fetch_page_data periode req = .error .attributeError := by
  simp [fetch_page_data, TunkinRequest.getAttr, Bind.bind, Except.bind]
